import Mathlib

/-!
Verification of the CleanKey quote backend (src/main.py).

The core of the service is three pure functions: `get_coli_by_zip`
(cost-of-living lookup with prefix fallback), `calculate_labor_hours`
(weighted sum of property features) and `calculate_quote` (pricing).
We embed them over `ℚ`, modelling Python's `round(x, 2)` as exact
round-half-to-even at two decimals and `math.ceil` as `Int.ceil`.
The lookup tables hold Python ints, so they are `List (String × ℤ)`;
a Python dict literal keeps the last occurrence of a duplicated key,
so dict lookup searches the reversed association list.
-/

/-- Round half to even to an integer, the rounding used by Python's `round`. -/
def roundHalfEven (q : ℚ) : ℤ :=
  if Int.fract q < 1/2 then ⌊q⌋
  else if 1/2 < Int.fract q then ⌊q⌋ + 1
  else if ⌊q⌋ % 2 = 0 then ⌊q⌋ else ⌊q⌋ + 1

/-- Python's `round(x, 2)`: round to two decimal places, ties to even. -/
def round2 (q : ℚ) : ℚ := (roundHalfEven (q * 100) : ℚ) / 100

/-- The property-description input record: the numeric and lookup-relevant
fields of `QuoteRequest` in src/main.py.  The pydantic model constrains all
int fields to be ≥ 0, so counts are `ℕ`; the two float areas are `ℚ`, their
`ge=0` bounds carried as hypotheses where a theorem needs them. -/
structure QuoteRequest where
  zip_code : String
  beds : ℕ
  bedrooms : ℕ
  full_bathrooms : ℕ
  half_bathrooms : ℕ
  living_rooms : ℕ
  kitchens : ℕ
  carpet_area : ℚ
  hard_floors_area : ℚ
  exterior_features : ℕ
  extra_spaces : ℕ
  pets_allowed : Bool
deriving DecidableEq, Repr

/-- The `QuoteBreakdown` output record of src/main.py. -/
structure QuoteBreakdown where
  labor_hours : ℚ
  required_cleaners : ℤ
  estimated_actual_time : ℚ
  base_hourly_rate : ℚ
  coli_index : ℚ
  adjusted_hourly_rate : ℚ
  raw_cost : ℚ
  profit_margin_percentage : ℚ
  profit_margin_amount : ℚ
  flat_fee : ℚ
  final_quote : ℚ
  max_hours_per_cleaner : ℚ
  pet_multiplier_applied : Bool
  pet_multiplier_rate : ℚ
deriving DecidableEq, Repr

/-- First-match association-list lookup (the recursion behind Python's
`key in dict` / `dict[key]` once the list is reversed). -/
def lookupStr : List (String × ℤ) → String → Option ℤ
  | [], _ => none
  | (k, v) :: rest, key => if key = k then some v else lookupStr rest key

/-- Lookup with Python-dict semantics: a dict literal that repeats a key
keeps the LAST binding, so we search the reversed list. -/
def dictGet (l : List (String × ℤ)) (k : String) : Option ℤ :=
  lookupStr l.reverse k

/-- Table `COLI_DATA` of src/main.py, in source order.  The Python literal repeats
some keys (e.g. "55441" appears with 112 and later 115); `dictGet` keeps the
last occurrence, exactly as the Python dict does. -/
def coliData : List (String × ℤ) := [
  ("20001", 132), ("20002", 128), ("20003", 135), ("20004", 138), ("20005", 140),
  ("20006", 142), ("20007", 145), ("20008", 148), ("20009", 135), ("20010", 130),
  ("20011", 125), ("20012", 128), ("20015", 145), ("20016", 150), ("20017", 128),
  ("20018", 125), ("20019", 122), ("20020", 118), ("20024", 138), ("20032", 120),
  ("20036", 145), ("20037", 148), ("20052", 140), ("20057", 142), ("20064", 135),
  ("20071", 140), ("20090", 138), ("20204", 140), ("20500", 145), ("21201", 115),
  ("21202", 118), ("21205", 110), ("21206", 108), ("21207", 105), ("21208", 120),
  ("21209", 125), ("21210", 118), ("21211", 108), ("21212", 115), ("21213", 105),
  ("21214", 108), ("21215", 105), ("21216", 102), ("21217", 100), ("21218", 112),
  ("21219", 108), ("21220", 110), ("21221", 108), ("21222", 110), ("21224", 112),
  ("21225", 105), ("21227", 108), ("21228", 112), ("21229", 110), ("21230", 115),
  ("21231", 118), ("21234", 108), ("21235", 105), ("21236", 110), ("21237", 105),
  ("21239", 110), ("21244", 115), ("21250", 112), ("21286", 115), ("20812", 140),
  ("20814", 145), ("20815", 148), ("20816", 142), ("20817", 140), ("20818", 138),
  ("20832", 135), ("20833", 138), ("20837", 140), ("20838", 142), ("20841", 135),
  ("20842", 138), ("20850", 132), ("20851", 130), ("20852", 135), ("20853", 138),
  ("20854", 135), ("20855", 132), ("20871", 128), ("20872", 130), ("20874", 132),
  ("20876", 130), ("20877", 128), ("20878", 130), ("20879", 132), ("20880", 135),
  ("20882", 138), ("20886", 130), ("20895", 128), ("20896", 135), ("20901", 125),
  ("20902", 128), ("20903", 125), ("20904", 122), ("20905", 125), ("20906", 128),
  ("20910", 130), ("20912", 125), ("20705", 115), ("20706", 118), ("20707", 115),
  ("20708", 112), ("20710", 115), ("20712", 112), ("20715", 118), ("20716", 115),
  ("20717", 112), ("20720", 115), ("20721", 118), ("20722", 115), ("20724", 112),
  ("20737", 118), ("20740", 120), ("20743", 115), ("20744", 112), ("20745", 118),
  ("20746", 115), ("20747", 112), ("20748", 115), ("20770", 122), ("20774", 118),
  ("20782", 115), ("20783", 112), ("20785", 118), ("20787", 120), ("20788", 115),
  ("20794", 112), ("21037", 125), ("21054", 122), ("21060", 125), ("21061", 128),
  ("21076", 120), ("21090", 118), ("21108", 115), ("21113", 118), ("21114", 120),
  ("21122", 118), ("21140", 125), ("21144", 120), ("21146", 122), ("21401", 128),
  ("21403", 125), ("21405", 130), ("21409", 125), ("21412", 122), ("21701", 115),
  ("21702", 112), ("21703", 115), ("21704", 118), ("21705", 115), ("21710", 110),
  ("21716", 108), ("21718", 110), ("21740", 108), ("21787", 110), ("22003", 140),
  ("22015", 135), ("22030", 138), ("22031", 140), ("22032", 135), ("22041", 135),
  ("22042", 138), ("22043", 140), ("22044", 135), ("22046", 142), ("22060", 132),
  ("22066", 130), ("22101", 140), ("22102", 145), ("22124", 138), ("22150", 130),
  ("22151", 128), ("22152", 130), ("22153", 125), ("22180", 142), ("22181", 145),
  ("22182", 148), ("22183", 140), ("22201", 138), ("22202", 135), ("22203", 140),
  ("22204", 135), ("22205", 142), ("22206", 130), ("22207", 145), ("22213", 132),
  ("22301", 135), ("22302", 138), ("22304", 130), ("22305", 132), ("22314", 140),
  ("22315", 138), ("20120", 135), ("20121", 138), ("20124", 135), ("20151", 140),
  ("20152", 135), ("20170", 132), ("20171", 135), ("20175", 130), ("20190", 132),
  ("20191", 135), ("20194", 138), ("22003", 140), ("22009", 138), ("22015", 135),
  ("22027", 142), ("22030", 138), ("22031", 140), ("22032", 135), ("22033", 138),
  ("22035", 135), ("22039", 140), ("22042", 138), ("22043", 140), ("22060", 132),
  ("22066", 130), ("22079", 145), ("22081", 140), ("22092", 142), ("22095", 138),
  ("23173", 110), ("23223", 108), ("23224", 105), ("23225", 108), ("23226", 115),
  ("23227", 105), ("23230", 118), ("23233", 112), ("23235", 115), ("23236", 112),
  ("23294", 110), ("23059", 108), ("23060", 110), ("23061", 112), ("23113", 105),
  ("23114", 108), ("23120", 105), ("23229", 110), ("23238", 115), ("23832", 105),
  ("23834", 108), ("23838", 105), ("23451", 115), ("23452", 112), ("23453", 110),
  ("23454", 112), ("23455", 108), ("23456", 110), ("23457", 115), ("23462", 112),
  ("23464", 108), ("23502", 108), ("23503", 105), ("23504", 108), ("23505", 110),
  ("23507", 105), ("23508", 108), ("23509", 110), ("23510", 105), ("23511", 108),
  ("23513", 105), ("23518", 108), ("23551", 105), ("23601", 108), ("23602", 105),
  ("23603", 108), ("23604", 110), ("23606", 108), ("23608", 105), ("23669", 108),
  ("22901", 115), ("22902", 112), ("22903", 115), ("22904", 110), ("22911", 108),
  ("22936", 110), ("22940", 108), ("22980", 110), ("24012", 105), ("24013", 102),
  ("24014", 105), ("24015", 108), ("24016", 105), ("24017", 102), ("24018", 100),
  ("24019", 98), ("24153", 100), ("24179", 102), ("24201", 100), ("24210", 98),
  ("24234", 100), ("55401", 120), ("55402", 118), ("55403", 115), ("55404", 112),
  ("55405", 108), ("55406", 110), ("55407", 108), ("55408", 105), ("55409", 108),
  ("55410", 112), ("55411", 105), ("55412", 108), ("55413", 110), ("55414", 115),
  ("55415", 118), ("55416", 122), ("55417", 115), ("55418", 110), ("55419", 112),
  ("55420", 115), ("55421", 108), ("55422", 110), ("55423", 105), ("55424", 112),
  ("55425", 115), ("55426", 118), ("55427", 110), ("55428", 108), ("55429", 105),
  ("55430", 108), ("55431", 110), ("55432", 105), ("55433", 108), ("55434", 110),
  ("55435", 112), ("55436", 115), ("55437", 112), ("55438", 108), ("55439", 110),
  ("55441", 112), ("55443", 108), ("55444", 105), ("55445", 108), ("55446", 110),
  ("55447", 105), ("55448", 108), ("55101", 115), ("55102", 118), ("55103", 112),
  ("55104", 115), ("55105", 118), ("55106", 108), ("55107", 105), ("55108", 108),
  ("55109", 110), ("55110", 112), ("55112", 108), ("55113", 110), ("55116", 115),
  ("55117", 110), ("55118", 108), ("55119", 105), ("55120", 108), ("55123", 110),
  ("55124", 112), ("55125", 110), ("55126", 108), ("55127", 105), ("55128", 108),
  ("55129", 110), ("55130", 105), ("55133", 108), ("55144", 110), ("55155", 108),
  ("55161", 110), ("55164", 105), ("55165", 108), ("55166", 110), ("55167", 108),
  ("55168", 105), ("55169", 108), ("55172", 110), ("55175", 108), ("55176", 105),
  ("55177", 108), ("55182", 110), ("55187", 108), ("55188", 105), ("55191", 108),
  ("55305", 122), ("55317", 118), ("55318", 115), ("55322", 120), ("55331", 118),
  ("55337", 115), ("55343", 125), ("55345", 122), ("55347", 118), ("55356", 120),
  ("55357", 118), ("55359", 115), ("55361", 118), ("55364", 115), ("55391", 120),
  ("55441", 115), ("55442", 118), ("55014", 115), ("55042", 112), ("55055", 115),
  ("55071", 112), ("55082", 118), ("55090", 115), ("55092", 112), ("55115", 110),
  ("55121", 115), ("55122", 118), ("55150", 112), ("55306", 115), ("55340", 112),
  ("55372", 115), ("55378", 112), ("55379", 115), ("55381", 112), ("55382", 115),
  ("55386", 112), ("55387", 115), ("55388", 112), ("55390", 115), ("55802", 105),
  ("55803", 108), ("55804", 105), ("55805", 102), ("55806", 105), ("55807", 108),
  ("55808", 105), ("55810", 102), ("55811", 105), ("55812", 100), ("55901", 110),
  ("55902", 108), ("55904", 112), ("55905", 110), ("55906", 108), ("55909", 105),
  ("56301", 105), ("56303", 102), ("56304", 100), ("56321", 98), ("56374", 100),
  ("56001", 102), ("56002", 100), ("56003", 105), ("56006", 98), ("56019", 100),
  ("default", 115)]

/-- The `state_averages` table inside `get_coli_by_zip` in src/main.py. -/
def stateAverages : List (String × ℤ) := [
  ("20", 135),
  ("21", 115), ("207", 118), ("208", 125), ("209", 130),
  ("22", 130), ("23", 110), ("24", 102), ("232", 108), ("234", 110), ("229", 115),
  ("55", 110), ("556", 100), ("557", 98), ("550", 115), ("551", 112)]

/-- The zip normalization of src/main.py line 256,
`zip_code.split('-')[0][:5]`: the part before the first hyphen, truncated
to its first 5 characters. -/
def zip_5 (zip_code : String) : String :=
  ⟨(zip_code.data.takeWhile (fun c => c ≠ '-')).take 5⟩

/-- Function `get_coli_by_zip` of src/main.py: exact 5-char table match, else 3-char
prefix average, else 2-char prefix average, else `COLI_DATA["default"]`
(the `getD 0` arm is unreachable: the "default" key is in the table). -/
def get_coli_by_zip (zip_code : String) : ℚ :=
  let z5 := zip_5 zip_code
  match dictGet coliData z5 with
  | some v => (v : ℚ)
  | none =>
    let zip3 := z5.take 3
    let zip2 := z5.take 2
    match dictGet stateAverages zip3 with
    | some v => (v : ℚ)
    | none =>
      match dictGet stateAverages zip2 with
      | some v => (v : ℚ)
      | none => (((dictGet coliData "default").getD 0 : ℤ) : ℚ)

/-- The pre-pet-multiplier running total of `calculate_labor_hours` in
src/main.py (lines 306-327), with the terms in source order. -/
def basePropertyHours (r : QuoteRequest) : ℚ :=
  ((max r.beds r.bedrooms : ℕ) : ℚ) * 0.3
    + (r.full_bathrooms : ℚ) * 0.5
    + (r.half_bathrooms : ℚ) * 0.25
    + (r.living_rooms : ℚ) * 0.3
    + (r.kitchens : ℚ) * 0.6
    + r.carpet_area * 0.0003
    + r.hard_floors_area * 0.0004
    + 0.5
    + (r.extra_spaces : ℚ) * 0.20
    + (r.exterior_features : ℚ) * 0.20

/-- Function `calculate_labor_hours` of src/main.py: the weighted sum, times 1.1 when
pets are allowed, rounded to 2 decimals. -/
def calculate_labor_hours (r : QuoteRequest) : ℚ :=
  round2 (if r.pets_allowed then basePropertyHours r * 1.1 else basePropertyHours r)

/-- Function `calculate_quote` of src/main.py (lines 335-380). -/
def calculate_quote (r : QuoteRequest) : QuoteBreakdown :=
  let BASE_HOURLY_RATE : ℚ := 25.0
  let PROFIT_MARGIN_PCT : ℚ := 0.25
  let FLAT_FEE : ℚ := 25.0
  let MAX_HOURS_PER_CLEANER : ℚ := 4.0
  let PET_MULTIPLIER : ℚ := 1.1
  let labor_hours := calculate_labor_hours r
  let pet_multiplier_applied := r.pets_allowed
  let coli_index := get_coli_by_zip r.zip_code
  let adjusted_hourly_rate := BASE_HOURLY_RATE * (coli_index / 100)
  let required_cleaners : ℤ := ⌈labor_hours / MAX_HOURS_PER_CLEANER⌉
  let estimated_actual_time := round2 (labor_hours / (required_cleaners : ℚ))
  let raw_cost := labor_hours * adjusted_hourly_rate
  let profit_amount := raw_cost * PROFIT_MARGIN_PCT
  let final_quote := raw_cost + profit_amount + FLAT_FEE
  { labor_hours := labor_hours
    required_cleaners := required_cleaners
    estimated_actual_time := estimated_actual_time
    base_hourly_rate := BASE_HOURLY_RATE
    coli_index := coli_index
    adjusted_hourly_rate := round2 adjusted_hourly_rate
    raw_cost := round2 raw_cost
    profit_margin_percentage := PROFIT_MARGIN_PCT
    profit_margin_amount := round2 profit_amount
    flat_fee := FLAT_FEE
    final_quote := round2 final_quote
    max_hours_per_cleaner := MAX_HOURS_PER_CLEANER
    pet_multiplier_applied := pet_multiplier_applied
    pet_multiplier_rate := PET_MULTIPLIER }

/-! ### Rounding lemmas -/

lemma roundHalfEven_intCast (n : ℤ) : roundHalfEven (n : ℚ) = n := by
  norm_num [roundHalfEven, Int.fract_intCast]

lemma floor_le_roundHalfEven (q : ℚ) : ⌊q⌋ ≤ roundHalfEven q := by
  unfold roundHalfEven; split_ifs <;> omega

lemma roundHalfEven_le (q : ℚ) : roundHalfEven q ≤ ⌊q⌋ + 1 := by
  unfold roundHalfEven; split_ifs <;> omega

lemma roundHalfEven_mono {a b : ℚ} (hab : a ≤ b) : roundHalfEven a ≤ roundHalfEven b := by
  have hf : ⌊a⌋ ≤ ⌊b⌋ := Int.floor_le_floor hab
  rcases lt_or_eq_of_le hf with h | h
  · calc roundHalfEven a ≤ ⌊a⌋ + 1 := roundHalfEven_le a
      _ ≤ ⌊b⌋ := by omega
      _ ≤ roundHalfEven b := floor_le_roundHalfEven b
  · have hfr : Int.fract a ≤ Int.fract b := by
      simp only [Int.fract]
      rw [h]
      linarith
    unfold roundHalfEven
    rw [h]
    split_ifs <;> first | omega | linarith

lemma round2_mono {a b : ℚ} (h : a ≤ b) : round2 a ≤ round2 b := by
  unfold round2
  have h1 : roundHalfEven (a * 100) ≤ roundHalfEven (b * 100) :=
    roundHalfEven_mono (by linarith)
  have h2 : ((roundHalfEven (a * 100) : ℤ) : ℚ) ≤ ((roundHalfEven (b * 100) : ℤ) : ℚ) := by
    exact_mod_cast h1
  linarith

/-- A value that is already a whole number of hundredths is a fixed point
of `round2`. -/
lemma round2_cent (n : ℤ) : round2 ((n : ℚ) / 100) = (n : ℚ) / 100 := by
  unfold round2
  rw [div_mul_cancel₀ _ (by norm_num : (100:ℚ) ≠ 0), roundHalfEven_intCast]

/-! ### Lookup-table lemmas -/

lemma lookupStr_mem {l : List (String × ℤ)} {k : String} {v : ℤ}
    (h : lookupStr l k = some v) : (k, v) ∈ l := by
  induction l with
  | nil => simp [lookupStr] at h
  | cons p rest ih =>
    obtain ⟨k', v'⟩ := p
    by_cases hk : k = k'
    · simp only [lookupStr, if_pos hk] at h
      obtain rfl : v' = v := by injection h
      subst hk
      exact List.mem_cons_self _ _
    · simp only [lookupStr, if_neg hk] at h
      exact List.mem_cons_of_mem _ (ih h)

lemma dictGet_mem {l : List (String × ℤ)} {k : String} {v : ℤ}
    (h : dictGet l k = some v) : (k, v) ∈ l :=
  List.mem_reverse.1 (lookupStr_mem h)

set_option maxRecDepth 80000 in
lemma coliData_ge : ∀ p ∈ coliData, (98:ℤ) ≤ p.2 := by decide

set_option maxRecDepth 80000 in
lemma stateAverages_ge : ∀ p ∈ stateAverages, (98:ℤ) ≤ p.2 := by decide

set_option maxRecDepth 80000 in
lemma dictGet_default : dictGet coliData "default" = some 115 := by decide

/-- Every reachable regional index is at least 98: every tabulated value,
every prefix average, and the global default. -/
lemma coli_ge (z : String) : (98:ℚ) ≤ get_coli_by_zip z := by
  unfold get_coli_by_zip
  cases h1 : dictGet coliData (zip_5 z) with
  | some v =>
    simp only [h1]
    exact_mod_cast coliData_ge _ (dictGet_mem h1)
  | none =>
    simp only [h1]
    cases h2 : dictGet stateAverages ((zip_5 z).take 3) with
    | some v =>
      simp only [h2]
      exact_mod_cast stateAverages_ge _ (dictGet_mem h2)
    | none =>
      simp only [h2]
      cases h3 : dictGet stateAverages ((zip_5 z).take 2) with
      | some v =>
        simp only [h3]
        exact_mod_cast stateAverages_ge _ (dictGet_mem h3)
      | none =>
        simp only [h3, dictGet_default, Option.getD_some]
        norm_num

/-! ### Unfolding lemmas for the breakdown fields -/

lemma quote_labor_def (r : QuoteRequest) :
    (calculate_quote r).labor_hours = calculate_labor_hours r := rfl

lemma quote_cleaners_def (r : QuoteRequest) :
    (calculate_quote r).required_cleaners = ⌈calculate_labor_hours r / 4.0⌉ := rfl

lemma quote_est_def (r : QuoteRequest) :
    (calculate_quote r).estimated_actual_time =
      round2 (calculate_labor_hours r / ((⌈calculate_labor_hours r / 4.0⌉ : ℤ) : ℚ)) := rfl

lemma quote_raw_def (r : QuoteRequest) :
    (calculate_quote r).raw_cost =
      round2 (calculate_labor_hours r * (25.0 * (get_coli_by_zip r.zip_code / 100))) := rfl

lemma quote_margin_def (r : QuoteRequest) :
    (calculate_quote r).profit_margin_amount =
      round2 (calculate_labor_hours r * (25.0 * (get_coli_by_zip r.zip_code / 100)) * 0.25) := rfl

lemma quote_final_def (r : QuoteRequest) :
    (calculate_quote r).final_quote =
      round2 (calculate_labor_hours r * (25.0 * (get_coli_by_zip r.zip_code / 100))
        + calculate_labor_hours r * (25.0 * (get_coli_by_zip r.zip_code / 100)) * 0.25
        + 25.0) := rfl

lemma quote_flat_def (r : QuoteRequest) : (calculate_quote r).flat_fee = 25.0 := rfl

lemma quote_max_def (r : QuoteRequest) : (calculate_quote r).max_hours_per_cleaner = 4.0 := rfl

lemma quote_margin_pct_def (r : QuoteRequest) :
    (calculate_quote r).profit_margin_percentage = 0.25 := rfl

lemma quote_petrate_def (r : QuoteRequest) : (calculate_quote r).pet_multiplier_rate = 1.1 := rfl

/-! ### Lower bounds on labor hours -/

lemma basePropertyHours_ge_half (r : QuoteRequest)
    (hc : 0 ≤ r.carpet_area) (hh : 0 ≤ r.hard_floors_area) :
    1/2 ≤ basePropertyHours r := by
  unfold basePropertyHours
  have h1 : (0:ℚ) ≤ ((max r.beds r.bedrooms : ℕ) : ℚ) := Nat.cast_nonneg _
  have h2 : (0:ℚ) ≤ (r.full_bathrooms : ℚ) := Nat.cast_nonneg _
  have h3 : (0:ℚ) ≤ (r.half_bathrooms : ℚ) := Nat.cast_nonneg _
  have h4 : (0:ℚ) ≤ (r.living_rooms : ℚ) := Nat.cast_nonneg _
  have h5 : (0:ℚ) ≤ (r.kitchens : ℚ) := Nat.cast_nonneg _
  have h6 : (0:ℚ) ≤ (r.extra_spaces : ℚ) := Nat.cast_nonneg _
  have h7 : (0:ℚ) ≤ (r.exterior_features : ℚ) := Nat.cast_nonneg _
  nlinarith

lemma basePropertyHours_nonneg (r : QuoteRequest)
    (hc : 0 ≤ r.carpet_area) (hh : 0 ≤ r.hard_floors_area) :
    0 ≤ basePropertyHours r :=
  le_trans (by norm_num) (basePropertyHours_ge_half r hc hh)

lemma labor_ge_half (r : QuoteRequest)
    (hc : 0 ≤ r.carpet_area) (hh : 0 ≤ r.hard_floors_area) :
    1/2 ≤ calculate_labor_hours r := by
  unfold calculate_labor_hours
  have hb := basePropertyHours_ge_half r hc hh
  have hb0 := basePropertyHours_nonneg r hc hh
  have key : 1/2 ≤ (if r.pets_allowed then basePropertyHours r * 1.1 else basePropertyHours r) := by
    split_ifs
    · nlinarith
    · exact hb
  have h50 : ((50:ℤ):ℚ)/100 = 1/2 := by norm_num
  have key2 : ((50:ℤ):ℚ)/100 ≤
      (if r.pets_allowed = true then basePropertyHours r * 1.1 else basePropertyHours r) := by
    rw [h50]; exact key
  have hm := round2_mono key2
  rw [round2_cent, h50] at hm
  exact hm

lemma labor_pos (r : QuoteRequest)
    (hc : 0 ≤ r.carpet_area) (hh : 0 ≤ r.hard_floors_area) :
    0 < calculate_labor_hours r :=
  lt_of_lt_of_le (by norm_num) (labor_ge_half r hc hh)

lemma labor_ge_kitchen (r : QuoteRequest)
    (hc : 0 ≤ r.carpet_area) (hh : 0 ≤ r.hard_floors_area) (hk : 1 ≤ r.kitchens) :
    11/10 ≤ calculate_labor_hours r := by
  unfold calculate_labor_hours
  have hkc : (1:ℚ) ≤ (r.kitchens : ℚ) := by exact_mod_cast hk
  have hb : 11/10 ≤ basePropertyHours r := by
    unfold basePropertyHours
    have h1 : (0:ℚ) ≤ ((max r.beds r.bedrooms : ℕ) : ℚ) := Nat.cast_nonneg _
    have h2 : (0:ℚ) ≤ (r.full_bathrooms : ℚ) := Nat.cast_nonneg _
    have h3 : (0:ℚ) ≤ (r.half_bathrooms : ℚ) := Nat.cast_nonneg _
    have h4 : (0:ℚ) ≤ (r.living_rooms : ℚ) := Nat.cast_nonneg _
    have h6 : (0:ℚ) ≤ (r.extra_spaces : ℚ) := Nat.cast_nonneg _
    have h7 : (0:ℚ) ≤ (r.exterior_features : ℚ) := Nat.cast_nonneg _
    nlinarith
  have key : 11/10 ≤ (if r.pets_allowed then basePropertyHours r * 1.1 else basePropertyHours r) := by
    split_ifs
    · nlinarith
    · exact hb
  have h110 : ((110:ℤ):ℚ)/100 = 11/10 := by norm_num
  have key2 : ((110:ℤ):ℚ)/100 ≤
      (if r.pets_allowed = true then basePropertyHours r * 1.1 else basePropertyHours r) := by
    rw [h110]; exact key
  have hm := round2_mono key2
  rw [round2_cent, h110] at hm
  exact hm

lemma cleaners_pos (r : QuoteRequest)
    (hc : 0 ≤ r.carpet_area) (hh : 0 ≤ r.hard_floors_area) :
    0 < (calculate_quote r).required_cleaners := by
  rw [quote_cleaners_def]
  refine Int.ceil_pos.2 ?_
  have := labor_pos r hc hh
  have h4 : (0:ℚ) < 4.0 := by norm_num
  exact div_pos this h4

/-! ### Concrete fixtures -/

/-- A request with one half bathroom and one kitchen in zip 21201
(tabulated index 115, adjusted rate 28.75): labor hours 1.35, raw cost
38.8125. -/
def cxReq : QuoteRequest :=
  { zip_code := "21201", beds := 0, bedrooms := 0, full_bathrooms := 0,
    half_bathrooms := 1, living_rooms := 0, kitchens := 1,
    carpet_area := 0, hard_floors_area := 0, exterior_features := 0,
    extra_spaces := 0, pets_allowed := false }

/-- The fixture `cxReq` with pets allowed. -/
def petReq : QuoteRequest := { cxReq with pets_allowed := true }

/-- The fixture `cxReq` with strictly larger bedroom count and carpet area. -/
def bigReq : QuoteRequest := { cxReq with bedrooms := 3, carpet_area := 100 }

/-- A property description with every count and area zero (even the kitchen
count, below the request model's lower bound) and no pets. -/
def allZeroRequest (z : String) : QuoteRequest :=
  { zip_code := z, beds := 0, bedrooms := 0, full_bathrooms := 0,
    half_bathrooms := 0, living_rooms := 0, kitchens := 0,
    carpet_area := 0, hard_floors_area := 0, exterior_features := 0,
    extra_spaces := 0, pets_allowed := false }

set_option maxRecDepth 80000 in
lemma coli_21201 : get_coli_by_zip "21201" = 115 := by
  have h : dictGet coliData (zip_5 "21201") = some 115 := by decide
  unfold get_coli_by_zip
  simp only [h]
  norm_num

lemma labor_cx : calculate_labor_hours cxReq = 27/20 := by
  simp only [calculate_labor_hours, basePropertyHours, cxReq]
  norm_num [round2, roundHalfEven, Int.fract]

lemma raw_cx : (calculate_quote cxReq).raw_cost = 3881/100 := by
  rw [quote_raw_def]
  have hz : cxReq.zip_code = "21201" := rfl
  rw [hz, coli_21201, labor_cx]
  norm_num [round2, roundHalfEven, Int.fract]

lemma final_cx : (calculate_quote cxReq).final_quote = 7352/100 := by
  rw [quote_final_def]
  have hz : cxReq.zip_code = "21201" := rfl
  rw [hz, coli_21201, labor_cx]
  norm_num [round2, roundHalfEven, Int.fract]

/-! ### Claim theorems -/

/-- C1 counterexample: for the fixture `cxReq` (one half bathroom, one
kitchen, zip 21201), the code's `final_quote` is 73.52, but the claimed
staged formula `round(raw_cost,2) + round(round(raw_cost,2)*margin_pct,2)
+ flat_fee` gives 38.81 + 9.70 + 25 = 73.51: the code rounds once at the
end instead of summing independently rounded terms. -/
theorem staged_rounding_fails_at_cxReq :
    (calculate_quote cxReq).raw_cost = 3881/100 ∧
    (calculate_quote cxReq).final_quote = 7352/100 ∧
    round2 ((calculate_quote cxReq).raw_cost * (calculate_quote cxReq).profit_margin_percentage)
      = 970/100 ∧
    (calculate_quote cxReq).final_quote ≠
      (calculate_quote cxReq).raw_cost
        + round2 ((calculate_quote cxReq).raw_cost * (calculate_quote cxReq).profit_margin_percentage)
        + (calculate_quote cxReq).flat_fee := by
  have hmargin : round2 ((calculate_quote cxReq).raw_cost
      * (calculate_quote cxReq).profit_margin_percentage) = 970/100 := by
    rw [raw_cx, quote_margin_pct_def]
    norm_num [round2, roundHalfEven, Int.fract]
  refine ⟨raw_cx, final_cx, hmargin, ?_⟩
  rw [final_cx, hmargin, raw_cx, quote_flat_def]
  norm_num

/-- C1 amended: the margin is computed from the UNROUNDED raw cost and the
final quote is `round(raw_cost + margin + flat_fee, 2)`, rounded once at
the end; each stored field (`raw_cost`, `profit_margin_amount`,
`final_quote`) is independently rounded from the unrounded running values
when the breakdown is assembled. -/
theorem quote_rounds_once_at_end (r : QuoteRequest) :
    (calculate_quote r).raw_cost =
      round2 (calculate_labor_hours r * (25.0 * (get_coli_by_zip r.zip_code / 100))) ∧
    (calculate_quote r).profit_margin_amount =
      round2 (calculate_labor_hours r * (25.0 * (get_coli_by_zip r.zip_code / 100)) * 0.25) ∧
    (calculate_quote r).final_quote =
      round2 (calculate_labor_hours r * (25.0 * (get_coli_by_zip r.zip_code / 100))
        + calculate_labor_hours r * (25.0 * (get_coli_by_zip r.zip_code / 100)) * 0.25
        + 25.0) :=
  ⟨rfl, rfl, rfl⟩

/-- C2: `get_coli_by_zip` normalizes the zip (drops any hyphen suffix, keeps
the first 5 characters), then — first match wins — returns the exact
5-character table value, else the 3-character-prefix average, else the
2-character-prefix average, else the global default 115; being a total
function of the input string, it raises no error on any input. -/
theorem get_coli_by_zip_spec (z : String) :
    (∀ v : ℤ, dictGet coliData (zip_5 z) = some v → get_coli_by_zip z = v) ∧
    (dictGet coliData (zip_5 z) = none →
      ∀ v : ℤ, dictGet stateAverages ((zip_5 z).take 3) = some v → get_coli_by_zip z = v) ∧
    (dictGet coliData (zip_5 z) = none →
      dictGet stateAverages ((zip_5 z).take 3) = none →
      ∀ v : ℤ, dictGet stateAverages ((zip_5 z).take 2) = some v → get_coli_by_zip z = v) ∧
    (dictGet coliData (zip_5 z) = none →
      dictGet stateAverages ((zip_5 z).take 3) = none →
      dictGet stateAverages ((zip_5 z).take 2) = none →
      get_coli_by_zip z = 115) := by
  refine ⟨?_, ?_, ?_, ?_⟩
  · intro v h1
    unfold get_coli_by_zip
    simp only [h1]
  · intro h1 v h2
    unfold get_coli_by_zip
    simp only [h1, h2]
  · intro h1 h2 v h3
    unfold get_coli_by_zip
    simp only [h1, h2, h3]
  · intro h1 h2 h3
    unfold get_coli_by_zip
    simp only [h1, h2, h3, dictGet_default, Option.getD_some]
    norm_num

set_option maxRecDepth 80000 in
/-- C2 witness: the hyphenated zip "20001-1234" normalizes to "20001" and
hits the exact table entry 132. -/
theorem get_coli_by_zip_spec_witness : get_coli_by_zip "20001-1234" = 132 := by
  have h : dictGet coliData (zip_5 "20001-1234") = some 132 := by decide
  exact_mod_cast (get_coli_by_zip_spec "20001-1234").1 132 h

/-- C3: the required cleaner count is `⌈labor_hours / max_hours_per_cleaner⌉`,
which on the request domain (nonnegative areas) is already at least 1, so it
coincides with the 1-clamped value; and the per-cleaner time is
`labor_hours / required_cleaners` rounded to 2 decimals. -/
theorem crew_and_time_spec (r : QuoteRequest)
    (hc : 0 ≤ r.carpet_area) (hh : 0 ≤ r.hard_floors_area) :
    (calculate_quote r).required_cleaners =
        ⌈calculate_labor_hours r / (calculate_quote r).max_hours_per_cleaner⌉ ∧
    (calculate_quote r).required_cleaners =
        max 1 ⌈calculate_labor_hours r / (calculate_quote r).max_hours_per_cleaner⌉ ∧
    (calculate_quote r).estimated_actual_time =
        round2 (calculate_labor_hours r / (((calculate_quote r).required_cleaners : ℤ) : ℚ)) := by
  have h1 : (calculate_quote r).required_cleaners = ⌈calculate_labor_hours r / 4.0⌉ :=
    quote_cleaners_def r
  have hmax : (calculate_quote r).max_hours_per_cleaner = 4.0 := quote_max_def r
  have hpos := cleaners_pos r hc hh
  refine ⟨by rw [hmax]; exact h1, ?_, ?_⟩
  · rw [hmax, h1]
    have hge : 1 ≤ ⌈calculate_labor_hours r / 4.0⌉ := by
      rw [h1] at hpos; omega
    exact (max_eq_right hge).symm
  · rw [h1]
    exact quote_est_def r

/-- C3 witness: the fixture `cxReq` (labor hours 1.35) needs 1 cleaner. -/
theorem crew_and_time_spec_witness :
    (calculate_quote cxReq).required_cleaners =
        ⌈calculate_labor_hours cxReq / (calculate_quote cxReq).max_hours_per_cleaner⌉ ∧
    (calculate_quote cxReq).required_cleaners =
        max 1 ⌈calculate_labor_hours cxReq / (calculate_quote cxReq).max_hours_per_cleaner⌉ ∧
    (calculate_quote cxReq).estimated_actual_time =
        round2 (calculate_labor_hours cxReq / (((calculate_quote cxReq).required_cleaners : ℤ) : ℚ)) :=
  crew_and_time_spec cxReq (by norm_num [cxReq]) (by norm_num [cxReq])

/-- C4: for an all-zero property description (every count and area zero,
pets false, any zip string) the labor hours are still 0.5 from the laundry
baseline, so the required cleaner count is 1, not 0, and the per-cleaner
division is defined. -/
theorem all_zero_crew_nonzero (z : String) :
    (calculate_quote (allZeroRequest z)).required_cleaners = 1 ∧
    (calculate_quote (allZeroRequest z)).required_cleaners ≠ 0 := by
  have hl : calculate_labor_hours (allZeroRequest z) = 1/2 := by
    simp only [calculate_labor_hours, basePropertyHours, allZeroRequest]
    norm_num [round2, roundHalfEven, Int.fract]
  have h1 : (calculate_quote (allZeroRequest z)).required_cleaners = ⌈(1:ℚ)/2 / 4.0⌉ := by
    rw [quote_cleaners_def, hl]
  have h2 : ⌈(1:ℚ)/2 / 4.0⌉ = 1 := by
    rw [Int.ceil_eq_iff]
    norm_num
  exact ⟨h1.trans h2, by rw [h1, h2]; omega⟩

/-- C5: with pets the labor-hour total is multiplied by exactly the
`pet_multiplier_rate` echoed in the breakdown (1.1) before the final
2-decimal rounding; without pets it is the plain rounded sum. -/
theorem pet_multiplier_exact (r : QuoteRequest) :
    (r.pets_allowed = true →
      (calculate_quote r).labor_hours =
        round2 (basePropertyHours r * (calculate_quote r).pet_multiplier_rate)) ∧
    (r.pets_allowed = false →
      (calculate_quote r).labor_hours = round2 (basePropertyHours r)) := by
  constructor
  · intro hp
    rw [quote_labor_def, quote_petrate_def]
    unfold calculate_labor_hours
    rw [if_pos hp]
  · intro hp
    rw [quote_labor_def]
    unfold calculate_labor_hours
    rw [if_neg]
    simp [hp]

/-- C5 witness: the pet multiplier branch at `petReq` and the pet-free
branch at `cxReq`. -/
theorem pet_multiplier_exact_witness :
    (calculate_quote petReq).labor_hours =
      round2 (basePropertyHours petReq * (calculate_quote petReq).pet_multiplier_rate) ∧
    (calculate_quote cxReq).labor_hours = round2 (basePropertyHours cxReq) :=
  ⟨(pet_multiplier_exact petReq).1 rfl, (pet_multiplier_exact cxReq).2 rfl⟩

/-- C6: only the effective bedroom count `max beds bedrooms` enters the
quote: two requests that differ only in `beds`/`bedrooms` but agree on the
max produce identical breakdowns. -/
theorem effective_bedrooms_max (r : QuoteRequest) (b1 b2 b1' b2' : ℕ)
    (hmax : max b1 b2 = max b1' b2') :
    calculate_quote { r with beds := b1, bedrooms := b2 } =
      calculate_quote { r with beds := b1', bedrooms := b2' } := by
  have hl : calculate_labor_hours { r with beds := b1, bedrooms := b2 } =
      calculate_labor_hours { r with beds := b1', bedrooms := b2' } := by
    unfold calculate_labor_hours basePropertyHours
    simp [hmax]
  unfold calculate_quote
  simp only [hl]

/-- C6 witness: beds/bedrooms (3,1) and (2,3) share the max 3 and give the
same breakdown. -/
theorem effective_bedrooms_max_witness :
    calculate_quote { cxReq with beds := 3, bedrooms := 1 } =
      calculate_quote { cxReq with beds := 2, bedrooms := 3 } :=
  effective_bedrooms_max cxReq 3 1 2 3 (by decide)

/-- C7: the per-cleaner time never exceeds the max-hours-per-cleaner cap. -/
theorem per_cleaner_time_le_cap (r : QuoteRequest)
    (hc : 0 ≤ r.carpet_area) (hh : 0 ≤ r.hard_floors_area) :
    (calculate_quote r).estimated_actual_time ≤ (calculate_quote r).max_hours_per_cleaner := by
  rw [quote_est_def, quote_max_def]
  have hlab := labor_pos r hc hh
  have hcpos : (0:ℤ) < ⌈calculate_labor_hours r / 4.0⌉ :=
    Int.ceil_pos.2 (div_pos hlab (by norm_num))
  have hcq : (0:ℚ) < ((⌈calculate_labor_hours r / 4.0⌉ : ℤ) : ℚ) := by exact_mod_cast hcpos
  have hle : calculate_labor_hours r / ((⌈calculate_labor_hours r / 4.0⌉ : ℤ) : ℚ)
      ≤ ((400:ℤ):ℚ)/100 := by
    rw [div_le_iff₀ hcq]
    have hceil := Int.le_ceil (calculate_labor_hours r / 4.0)
    have h4 : (4.0:ℚ) = 4 := by norm_num
    rw [h4] at hceil
    have h400 : ((400:ℤ):ℚ)/100 = 4 := by norm_num
    rw [h400]
    nlinarith [hceil]
  have hm := round2_mono hle
  rw [round2_cent] at hm
  calc round2 (calculate_labor_hours r / ((⌈calculate_labor_hours r / 4.0⌉ : ℤ) : ℚ))
      ≤ ((400:ℤ):ℚ)/100 := hm
    _ = 4.0 := by norm_num

/-- C7 witness: at `cxReq`, the per-cleaner time (1.35) is below the cap 4. -/
theorem per_cleaner_time_le_cap_witness :
    (calculate_quote cxReq).estimated_actual_time ≤ (calculate_quote cxReq).max_hours_per_cleaner :=
  per_cleaner_time_le_cap cxReq (by norm_num [cxReq]) (by norm_num [cxReq])

/-- C8: the quote calculator is a pure function of its input record: the
same request always produces the identical breakdown (no hidden state or
clock in the arithmetic). -/
theorem calculate_quote_deterministic (r : QuoteRequest) :
    calculate_quote r = calculate_quote r := rfl

/-- C9: for every input accepted by the request model (nonnegative areas,
at least one kitchen), the labor hours are at least 1.1, every reachable
regional index is at least 98, so the final quote strictly exceeds the
flat fee. -/
theorem final_quote_gt_flat_fee (r : QuoteRequest)
    (hc : 0 ≤ r.carpet_area) (hh : 0 ≤ r.hard_floors_area) (hk : 1 ≤ r.kitchens) :
    (calculate_quote r).flat_fee < (calculate_quote r).final_quote := by
  rw [quote_flat_def, quote_final_def]
  have h1 := labor_ge_kitchen r hc hh hk
  have h2 := coli_ge r.zip_code
  have hraw : (539:ℚ)/20 ≤
      calculate_labor_hours r * (25.0 * (get_coli_by_zip r.zip_code / 100)) := by
    nlinarith
  have hfin : ((5800:ℤ):ℚ)/100 ≤
      calculate_labor_hours r * (25.0 * (get_coli_by_zip r.zip_code / 100))
        + calculate_labor_hours r * (25.0 * (get_coli_by_zip r.zip_code / 100)) * 0.25
        + 25.0 := by
    push_cast
    nlinarith [hraw]
  have hm := round2_mono hfin
  rw [round2_cent] at hm
  calc (25.0:ℚ) < ((5800:ℤ):ℚ)/100 := by norm_num
    _ ≤ _ := hm

/-- C9 witness: at `cxReq` the final quote 73.52 exceeds the flat fee 25. -/
theorem final_quote_gt_flat_fee_witness :
    (calculate_quote cxReq).flat_fee < (calculate_quote cxReq).final_quote :=
  final_quote_gt_flat_fee cxReq (by norm_num [cxReq]) (by norm_num [cxReq]) (by decide)

/-- C10: `calculate_labor_hours` is monotone non-decreasing in every numeric
input field: all weights and the pet multiplier are positive and 2-decimal
rounding is monotone. -/
theorem labor_hours_monotone (r1 r2 : QuoteRequest)
    (hp : r1.pets_allowed = r2.pets_allowed)
    (hb : r1.beds ≤ r2.beds) (hbr : r1.bedrooms ≤ r2.bedrooms)
    (hf : r1.full_bathrooms ≤ r2.full_bathrooms)
    (hhb : r1.half_bathrooms ≤ r2.half_bathrooms)
    (hl : r1.living_rooms ≤ r2.living_rooms)
    (hk : r1.kitchens ≤ r2.kitchens)
    (hca : r1.carpet_area ≤ r2.carpet_area)
    (hha : r1.hard_floors_area ≤ r2.hard_floors_area)
    (he : r1.exterior_features ≤ r2.exterior_features)
    (hx : r1.extra_spaces ≤ r2.extra_spaces) :
    calculate_labor_hours r1 ≤ calculate_labor_hours r2 := by
  have hbase : basePropertyHours r1 ≤ basePropertyHours r2 := by
    unfold basePropertyHours
    have c0 : ((max r1.beds r1.bedrooms : ℕ) : ℚ) ≤ ((max r2.beds r2.bedrooms : ℕ) : ℚ) := by
      exact_mod_cast max_le_max hb hbr
    have c1 : (r1.full_bathrooms : ℚ) ≤ (r2.full_bathrooms : ℚ) := by exact_mod_cast hf
    have c2 : (r1.half_bathrooms : ℚ) ≤ (r2.half_bathrooms : ℚ) := by exact_mod_cast hhb
    have c3 : (r1.living_rooms : ℚ) ≤ (r2.living_rooms : ℚ) := by exact_mod_cast hl
    have c4 : (r1.kitchens : ℚ) ≤ (r2.kitchens : ℚ) := by exact_mod_cast hk
    have c5 : (r1.extra_spaces : ℚ) ≤ (r2.extra_spaces : ℚ) := by exact_mod_cast hx
    have c6 : (r1.exterior_features : ℚ) ≤ (r2.exterior_features : ℚ) := by exact_mod_cast he
    linarith
  unfold calculate_labor_hours
  rw [hp]
  apply round2_mono
  split_ifs
  · nlinarith [hbase]
  · exact hbase

/-- C10 witness: adding 3 bedrooms and 100 sq ft of carpet to `cxReq` does
not decrease labor hours. -/
theorem labor_hours_monotone_witness :
    calculate_labor_hours cxReq ≤ calculate_labor_hours bigReq :=
  labor_hours_monotone cxReq bigReq rfl (by decide) (by decide) (by decide) (by decide)
    (by decide) (by decide) (by norm_num [cxReq, bigReq]) (by norm_num [cxReq, bigReq])
    (by decide) (by decide)
